/-
Verification of the request/response glue layer in `utils.py`.

The Python source is embedded shallowly:
* machine-level strings are `String` (lists of characters), and the Python
  string methods used by the source (`in`, `split`, `rsplit`, `strip`,
  `startswith`, `str`, `float`, `json.loads`) are modelled as executable
  Lean functions below;
* Python exceptions are values of `PyExc`, and fallible code returns
  `Except PyExc _`;
* the outbound HTTP POST and the Tavily search client are oracles passed
  as function arguments, so that the observable behaviour of each
  operation is a total function of its inputs and the oracle.
-/
import Mathlib

set_option maxRecDepth 10000
set_option linter.unusedVariables false

/-- The apostrophe character, built from its code point so that the
delimiter strings of the source can be assembled without quoting issues. -/
def sqC : Char := Char.ofNat 39

/-- The one-character string holding an apostrophe. -/
def sQ : String := String.singleton sqC

/-- Python exceptions that the embedded code can raise. -/
inductive PyExc where
  | httpError (status : Nat)
  | jsonDecodeError
  | keyError
  | typeError
  | valueError
  | indexError
  | attributeError
  | other (msg : String)
deriving DecidableEq, Repr

/-- An exact model of the Python floats occurring in this code: a value
`num / den` where `den` is always a positive power of ten in this
development.  The source only ever compares such values against the
constant `0.7`, where binary-float rounding cannot change the outcome, so
exact rational arithmetic is a faithful model. -/
structure PFloat where
  num : Int
  den : Nat
deriving DecidableEq, Repr

/-- Models the Python comparison `a > b` on floats (both denominators are
positive in every use in this development). -/
def PFloat.gtB (a b : PFloat) : Bool := decide (b.num * (a.den : Int) < a.num * (b.den : Int))

/-- The hardcoded confidence threshold `0.7`. -/
def pf07 : PFloat := ⟨7, 10⟩

/-- Worker for `listStartsWith`, recursing on the pattern so that an
exhausted pattern reduces even when the rest of the haystack is abstract. -/
def startsWithAux : List Char → List Char → Bool
  | [], _ => true
  | _ :: _, [] => false
  | d :: ds, c :: cs => c == d && startsWithAux ds cs

/-- Does `hay` begin with `pat`?  (Models Python `str.startswith` on
character lists.) -/
def listStartsWith (hay pat : List Char) : Bool := startsWithAux pat hay

/-- Locate the first occurrence of `sep` in `hay`; return the part before
it and the part after it. -/
def findSplit (sep : List Char) : List Char → Option (List Char × List Char)
  | [] => if listStartsWith [] sep then some ([], []) else none
  | c :: rest =>
    if listStartsWith (c :: rest) sep then some ([], List.drop sep.length (c :: rest))
    else
      match findSplit sep rest with
      | none => none
      | some (p, s) => some (c :: p, s)

/-- Fuelled worker for Python `str.split`: repeatedly split at the first
occurrence of `sep`.  Fuel `hay.length + 1` always suffices for the
non-empty separators used in this development. -/
def pySplitAllF (sep : List Char) : Nat → List Char → List (List Char)
  | 0, hay => [hay]
  | fuel + 1, hay =>
    match findSplit sep hay with
    | none => [hay]
    | some (p, rest) => p :: pySplitAllF sep fuel rest

/-- Models Python `hay.split(sep)` for a non-empty separator. -/
def pySplit (sep hay : String) : List String :=
  (pySplitAllF sep.data (hay.data.length + 1) hay.data).map String.mk

/-- Models Python `hay.split(sep, 1)`. -/
def pySplitMax1 (sep hay : String) : List String :=
  match findSplit sep.data hay.data with
  | none => [hay]
  | some (p, s) => [String.mk p, String.mk s]

/-- Fuelled worker locating the last occurrence of `sep`. -/
def findSplitLastF (sep : List Char) : Nat → List Char → Option (List Char × List Char)
  | 0, _ => none
  | fuel + 1, hay =>
    match findSplit sep hay with
    | none => none
    | some (p, rest) =>
      match findSplitLastF sep fuel rest with
      | none => some (p, rest)
      | some (p2, s2) => some (p ++ sep ++ p2, s2)

/-- Models Python `hay.rsplit(sep, 1)`: split at the last occurrence. -/
def pyRSplit1 (sep hay : String) : List String :=
  match findSplitLastF sep.data (hay.data.length + 1) hay.data with
  | none => [hay]
  | some (p, s) => [String.mk p, String.mk s]

/-- Models the Python substring test `sub in hay`. -/
def strContains (hay sub : String) : Bool := (findSplit sub.data hay.data).isSome

/-- Models Python list indexing `xs[i]`, which raises `IndexError` when out
of range. -/
def pyListIdx {α : Type} (xs : List α) (i : Nat) : Except PyExc α :=
  match xs.get? i with
  | some x => Except.ok x
  | none => Except.error PyExc.indexError

/-- The characters Python `str.strip()` removes. -/
def isPySpace (c : Char) : Bool :=
  c == ' ' || c == '\t' || c == '\n' || c == '\r' || c == Char.ofNat 11 || c == Char.ofNat 12

/-- Models Python `s.strip()`. -/
def pyStrip (s : String) : String :=
  String.mk (((s.data.dropWhile isPySpace).reverse.dropWhile isPySpace).reverse)

/-- Consume leading decimal digits, returning their value, how many were
read, and the rest of the input. -/
def readDigitsAux : List Char → Nat → Nat → Nat × Nat × List Char
  | c :: cs, acc, cnt =>
    if c.isDigit then readDigitsAux cs (acc * 10 + (c.toNat - 48)) (cnt + 1)
    else (acc, cnt, c :: cs)
  | [], acc, cnt => (acc, cnt, [])

/-- Consume leading decimal digits. -/
def readDigits (cs : List Char) : Nat × Nat × List Char := readDigitsAux cs 0 0

/-- Models Python `float(s)` on decimal literals (optional sign, digits,
fractional part, exponent, surrounded by optional whitespace).  The
`inf`/`nan` spellings and underscore digit separators, never produced by
the code under verification, are not modelled. -/
def pyFloatChars (cs0 : List Char) : Option PFloat :=
  let cs1 := ((cs0.dropWhile isPySpace).reverse.dropWhile isPySpace).reverse
  let sgnCs : Int × List Char :=
    match cs1 with
    | '-' :: r => (-1, r)
    | '+' :: r => (1, r)
    | r => (1, r)
  let sgn := sgnCs.1
  let ipr := readDigits sgnCs.2
  let ip := ipr.1
  let ic := ipr.2.1
  let fpr : Nat × Nat × List Char :=
    match ipr.2.2 with
    | '.' :: r => readDigits r
    | r => (0, 0, r)
  let fp := fpr.1
  let fc := fpr.2.1
  let hadDot : Bool := match ipr.2.2 with | '.' :: _ => true | _ => false
  let rest := if hadDot then fpr.2.2 else ipr.2.2
  if ic = 0 ∧ fc = 0 then none
  else
    match rest with
    | [] => some ⟨sgn * ((ip : Int) * 10 ^ fc + (fp : Int)), 10 ^ fc⟩
    | e :: r =>
      if e == 'e' || e == 'E' then
        let esr : Bool × List Char :=
          match r with
          | '-' :: r2 => (false, r2)
          | '+' :: r2 => (true, r2)
          | r2 => (true, r2)
        let epr := readDigits esr.2
        if epr.2.1 = 0 ∨ epr.2.2 ≠ [] then none
        else if esr.1 then
          some ⟨sgn * (((ip : Int) * 10 ^ fc + (fp : Int)) * 10 ^ epr.1), 10 ^ fc⟩
        else
          some ⟨sgn * ((ip : Int) * 10 ^ fc + (fp : Int)), 10 ^ fc * 10 ^ epr.1⟩
      else none

/-- Models Python `float(s)` on a string, raising `ValueError` on failure. -/
def pyFloatStr (s : String) : Except PyExc PFloat :=
  match pyFloatChars s.data with
  | some x => Except.ok x
  | none => Except.error PyExc.valueError

/-- Transient Python/JSON values flowing through the glue code: the result
of `json.loads` and the `content` field extracted from a chat response. -/
inductive PVal where
  | str (s : String)
  | num (x : PFloat)
  | bool (b : Bool)
  | null
  | listV (xs : List PVal)
  | dict (fields : List (String × PVal))

/-- Rendering of a `PFloat` used only inside `pyRepr`; no claim depends on
the exact text. -/
def pfText (x : PFloat) : String := toString x.num ++ "/" ++ toString x.den

mutual

/-- Models Python `repr` on the values of `PVal` (used by `str` on
non-string values).  No verified claim depends on the exact rendering of
container or numeric values. -/
def pyRepr : PVal → String
  | PVal.str s => sQ ++ s ++ sQ
  | PVal.num x => pfText x
  | PVal.bool true => "True"
  | PVal.bool false => "False"
  | PVal.null => "None"
  | PVal.listV xs => "[" ++ pyReprList xs ++ "]"
  | PVal.dict fs => "\x7b" ++ pyReprFields fs ++ "\x7d"

/-- Comma-separated reprs of list elements. -/
def pyReprList : List PVal → String
  | [] => ""
  | [x] => pyRepr x
  | x :: xs => pyRepr x ++ ", " ++ pyReprList xs

/-- Comma-separated reprs of dict entries. -/
def pyReprFields : List (String × PVal) → String
  | [] => ""
  | [kv] => sQ ++ kv.1 ++ sQ ++ ": " ++ pyRepr kv.2
  | kv :: fs => sQ ++ kv.1 ++ sQ ++ ": " ++ pyRepr kv.2 ++ ", " ++ pyReprFields fs

end

/-- Models Python `str(v)`: the identity on strings, `repr` otherwise. -/
def pyStr : PVal → String
  | PVal.str s => s
  | v => pyRepr v

/-- Lookup in a parsed JSON object.  Python's `json.loads` keeps the last
binding of a duplicated key, so the last match wins. -/
def dictLookupLast (fs : List (String × PVal)) (k : String) : Option PVal :=
  match fs with
  | [] => none
  | kv :: rest =>
    match dictLookupLast rest k with
    | some r => some r
    | none => if kv.1 = k then some kv.2 else none

/-- Models Python `v[k]` for a string key `k`: a `dict` yields the value or
`KeyError`; every other type raises `TypeError`. -/
def pyDictGet (v : PVal) (k : String) : Except PyExc PVal :=
  match v with
  | PVal.dict fs =>
    match dictLookupLast fs k with
    | some x => Except.ok x
    | none => Except.error PyExc.keyError
  | _ => Except.error PyExc.typeError

/-- Models Python `v[i]` for a non-negative integer index: list and string
indexing can raise `IndexError`; a dict with string keys raises `KeyError`;
other types raise `TypeError`. -/
def pyIndex (v : PVal) (i : Nat) : Except PyExc PVal :=
  match v with
  | PVal.listV xs => pyListIdx xs i
  | PVal.str s =>
    match s.data.get? i with
    | some c => Except.ok (PVal.str (String.singleton c))
    | none => Except.error PyExc.indexError
  | PVal.dict _ => Except.error PyExc.keyError
  | _ => Except.error PyExc.typeError

/-- Skip JSON whitespace. -/
def skipWs : List Char → List Char
  | c :: cs => if c == ' ' || c == '\t' || c == '\n' || c == '\r' then skipWs cs else c :: cs
  | [] => []

/-- Hexadecimal digit value. -/
def hexVal (c : Char) : Option Nat :=
  if c.isDigit then some (c.toNat - 48)
  else if 'a' ≤ c ∧ c ≤ 'f' then some (c.toNat - 87)
  else if 'A' ≤ c ∧ c ≤ 'F' then some (c.toNat - 55)
  else none

/-- Parse the body of a JSON string (the opening quote already consumed),
returning the decoded characters and the input after the closing quote.
Escapes are decoded as by Python's `json.loads`; surrogate-pair re-combining,
which the code under verification never relies on, is not modelled. -/
def parseJStr : Nat → List Char → Option (List Char × List Char)
  | 0, _ => none
  | fuel + 1, cs =>
    match cs with
    | [] => none
    | '"' :: rest => some ([], rest)
    | '\\' :: e :: rest =>
      if e == '"' || e == '\\' || e == '/' then
        match parseJStr fuel rest with
        | some (sc, r) => some (e :: sc, r)
        | none => none
      else if e == 'b' then
        match parseJStr fuel rest with
        | some (sc, r) => some (Char.ofNat 8 :: sc, r)
        | none => none
      else if e == 'f' then
        match parseJStr fuel rest with
        | some (sc, r) => some (Char.ofNat 12 :: sc, r)
        | none => none
      else if e == 'n' then
        match parseJStr fuel rest with
        | some (sc, r) => some ('\n' :: sc, r)
        | none => none
      else if e == 'r' then
        match parseJStr fuel rest with
        | some (sc, r) => some ('\r' :: sc, r)
        | none => none
      else if e == 't' then
        match parseJStr fuel rest with
        | some (sc, r) => some ('\t' :: sc, r)
        | none => none
      else if e == 'u' then
        match rest with
        | h1 :: h2 :: h3 :: h4 :: rest2 =>
          match hexVal h1, hexVal h2, hexVal h3, hexVal h4 with
          | some a, some b, some c, some d =>
            match parseJStr fuel rest2 with
            | some (sc, r) => some (Char.ofNat (((a * 16 + b) * 16 + c) * 16 + d) :: sc, r)
            | none => none
          | _, _, _, _ => none
        | _ => none
      else none
    | c :: rest =>
      if c.toNat < 32 then none
      else
        match parseJStr fuel rest with
        | some (sc, r) => some (c :: sc, r)
        | none => none

/-- Parse a JSON number (strict JSON grammar: optional minus, no leading
zeros, at least one digit in any fractional part and exponent). -/
def parseJNum (cs : List Char) : Option (PFloat × List Char) :=
  let sgnCs : Int × List Char :=
    match cs with
    | '-' :: r => (-1, r)
    | r => (1, r)
  let sgn := sgnCs.1
  match sgnCs.2 with
  | [] => none
  | c :: _ =>
    if ¬ c.isDigit then none
    else
      let ipr := readDigits sgnCs.2
      if c == '0' ∧ ipr.2.1 > 1 then none
      else
        let hadDot : Bool := match ipr.2.2 with | '.' :: _ => true | _ => false
        let fpr : Nat × Nat × List Char :=
          match ipr.2.2 with
          | '.' :: r => readDigits r
          | r => (0, 0, r)
        if hadDot ∧ fpr.2.1 = 0 then none
        else
          let ip := ipr.1
          let fc := if hadDot then fpr.2.1 else 0
          let fp := if hadDot then fpr.1 else 0
          let rest := if hadDot then fpr.2.2 else ipr.2.2
          let mantissa : Int := sgn * ((ip : Int) * 10 ^ fc + (fp : Int))
          match rest with
          | [] => some (⟨mantissa, 10 ^ fc⟩, [])
          | e :: r =>
            if e == 'e' || e == 'E' then
              let esr : Bool × List Char :=
                match r with
                | '-' :: r2 => (false, r2)
                | '+' :: r2 => (true, r2)
                | r2 => (true, r2)
              let epr := readDigits esr.2
              if epr.2.1 = 0 then none
              else if esr.1 then some (⟨mantissa * 10 ^ epr.1, 10 ^ fc⟩, epr.2.2)
              else some (⟨mantissa, 10 ^ fc * 10 ^ epr.1⟩, epr.2.2)
            else some (⟨mantissa, 10 ^ fc⟩, rest)

mutual

/-- Parse one JSON value, returning it and the unconsumed input.  Fuel
bounds the nesting depth; `input length + 1` always suffices.  `NaN` and
`Infinity`, accepted by Python's `json.loads` but never produced by the
code under verification, are not modelled. -/
def parseJVal : Nat → List Char → Option (PVal × List Char)
  | 0, _ => none
  | fuel + 1, cs0 =>
    let cs := skipWs cs0
    match cs with
    | [] => none
    | c :: rest =>
      if c == '"' then
        match parseJStr (rest.length + 1) rest with
        | some (sc, r) => some (PVal.str (String.mk sc), r)
        | none => none
      else if c == Char.ofNat 123 then
        let r1 := skipWs rest
        match r1 with
        | d :: r2 =>
          if d == Char.ofNat 125 then some (PVal.dict [], r2)
          else
            match parseJPairs fuel r1 with
            | some (ps, r3) => some (PVal.dict ps, r3)
            | none => none
        | [] => none
      else if c == '[' then
        let r1 := skipWs rest
        match r1 with
        | d :: r2 =>
          if d == ']' then some (PVal.listV [], r2)
          else
            match parseJItems fuel r1 with
            | some (vs, r3) => some (PVal.listV vs, r3)
            | none => none
        | [] => none
      else if listStartsWith cs "true".data then some (PVal.bool true, cs.drop 4)
      else if listStartsWith cs "false".data then some (PVal.bool false, cs.drop 5)
      else if listStartsWith cs "null".data then some (PVal.null, cs.drop 4)
      else
        match parseJNum cs with
        | some (x, r) => some (PVal.num x, r)
        | none => none

/-- Parse the members of a JSON object after its opening brace (at least
one member; the closing brace is consumed). -/
def parseJPairs : Nat → List Char → Option (List (String × PVal) × List Char)
  | 0, _ => none
  | fuel + 1, cs0 =>
    let cs := skipWs cs0
    match cs with
    | c :: rest =>
      if c == '"' then
        match parseJStr (rest.length + 1) rest with
        | some (kc, r1) =>
          match skipWs r1 with
          | d :: r3 =>
            if d == ':' then
              match parseJVal fuel r3 with
              | some (v, r4) =>
                match skipWs r4 with
                | d2 :: r6 =>
                  if d2 == ',' then
                    match parseJPairs fuel r6 with
                    | some (ps, r7) => some ((String.mk kc, v) :: ps, r7)
                    | none => none
                  else if d2 == Char.ofNat 125 then some ([(String.mk kc, v)], r6)
                  else none
                | [] => none
              | none => none
            else none
          | [] => none
        | none => none
      else none
    | [] => none

/-- Parse the items of a JSON array after its opening bracket (at least
one item; the closing bracket is consumed). -/
def parseJItems : Nat → List Char → Option (List PVal × List Char)
  | 0, _ => none
  | fuel + 1, cs0 =>
    match parseJVal fuel cs0 with
    | some (v, r1) =>
      match skipWs r1 with
      | d :: r3 =>
        if d == ',' then
          match parseJItems fuel r3 with
          | some (vs, r4) => some (v :: vs, r4)
          | none => none
        else if d == ']' then some ([v], r3)
        else none
      | [] => none
    | none => none

end

/-- Models Python `json.loads` on a string: parse one JSON document and
require that only whitespace follows it. -/
def jsonParse (s : String) : Option PVal :=
  match parseJVal (s.data.length + 1) s.data with
  | some (v, r) => if skipWs r = [] then some v else none
  | none => none

/-- Python `json.loads` on a string, as an exception-raising operation. -/
def pyJsonLoadsStr (s : String) : Except PyExc PVal :=
  match jsonParse s with
  | some v => Except.ok v
  | none => Except.error PyExc.jsonDecodeError

/-- Models `json.loads(v)` applied to an arbitrary value, as in
`assess_confidence`: a non-string argument raises `TypeError`. -/
def pyJsonLoads (v : PVal) : Except PyExc PVal :=
  match v with
  | PVal.str s => pyJsonLoadsStr s
  | _ => Except.error PyExc.typeError

/-- Models Python `float(v)` on a value: numbers pass through, booleans
become 0 or 1, strings are parsed (`ValueError` on failure), and `None`,
lists and dicts raise `TypeError`. -/
def pyFloat : PVal → Except PyExc PFloat
  | PVal.num x => Except.ok x
  | PVal.bool b => Except.ok ⟨if b then 1 else 0, 1⟩
  | PVal.str s => pyFloatStr s
  | _ => Except.error PyExc.typeError

/-- One role/content message of the chat payload. -/
structure Message where
  role : String
  content : String
deriving DecidableEq, Repr

/-- The request payload built by `chat_request` (lines 22-38 of
`utils.py`): the minimal shape leaves `max_tokens` and `temperature`
absent. -/
structure Payload where
  model : String
  messages : List Message
  max_tokens : Option Nat
  temperature : Option PFloat
deriving DecidableEq, Repr

/-- The parts of an HTTP response that the code observes: the status code
and the body text. -/
structure HttpResponse where
  status : Nat
  text : String
deriving DecidableEq, Repr

/-- The minimal-payload provider host tested on line 22 of `utils.py`. -/
def alphaHost : String := "alphagpt.alphafmc.com"

/-- The payload construction of `chat_request` (lines 22-38): a minimal
single-user-message payload when the configured endpoint contains the
`alphagpt` host, the standard system+user payload with `max_tokens` and
`temperature` 0.7 otherwise. -/
def chatPayload (endpoint model system_prompt user_message : String) (max_tokens : Nat) : Payload :=
  if strContains endpoint alphaHost then
    ⟨model, [⟨"user", user_message⟩], none, none⟩
  else
    ⟨model, [⟨"system", system_prompt⟩, ⟨"user", user_message⟩], some max_tokens, some ⟨7, 10⟩⟩

/-- Models `requests.Response.raise_for_status`: raises an `HTTPError`
carrying the status code exactly for 4xx and 5xx statuses. -/
def raise_for_status (r : HttpResponse) : Except PyExc Unit :=
  if 400 ≤ r.status ∧ r.status < 600 then Except.error (PyExc.httpError r.status)
  else Except.ok ()

/-- Lines 46-47 of `utils.py`: parse the response body and extract
`data["choices"][0]["message"]["content"]`. -/
def extractContent (body : String) : Except PyExc PVal := do
  let data ← pyJsonLoadsStr body
  let choices ← pyDictGet data "choices"
  let c0 ← pyIndex choices 0
  let msg ← pyDictGet c0 "message"
  pyDictGet msg "content"

/-- Embeds `chat_request` (lines 15-47 of `utils.py`).  The network POST is the
oracle `post`; the bearer-token header built from `api_key` does not
influence the observable result and is otherwise not modelled.  Errors from
`raise_for_status` and from extraction propagate to the caller. -/
def chat_request (endpoint api_key : String) (post : Payload → HttpResponse)
    (model system_prompt user_message : String) (max_tokens : Nat) : Except PyExc PVal :=
  let payload := chatPayload endpoint model system_prompt user_message max_tokens
  let response := post payload
  match raise_for_status response with
  | Except.error e => Except.error e
  | Except.ok _ => extractContent response.text

/-- The system prompt of `call_rag` (lines 56-61), with the context
embedded verbatim. -/
def ragSystemPrompt (context : String) : String :=
  "You are a helpful assistant that answers questions based on the provided context. \nIf the context doesn" ++ sQ ++ "t contain enough information to answer confidently, indicate that.\n\nContext:\n" ++ context ++ "\n"

/-- Embeds `call_rag` (lines 50-74 of `utils.py`).  In dry-run mode it returns the
fixed mock string; otherwise it forwards the query to `chat_request` and
converts every error into the empty string. -/
def call_rag (endpoint api_key : String) (post : Payload → HttpResponse)
    (query context : String) (dry_run : Bool) : PVal :=
  if dry_run then PVal.str "Mock response: This is a dry run response."
  else
    match chat_request endpoint api_key post "gpt-4-turbo" (ragSystemPrompt context) query 512 with
    | Except.ok v => v
    | Except.error _ => PVal.str ""

/-- Embeds `call_tavily_web_search` (lines 76-88 of `utils.py`).  The Tavily
client's `get_search_context` call (including client construction) is the
oracle `search`; every error becomes the empty string. -/
def call_tavily_web_search (search : String → Except PyExc String)
    (query : String) (dry_run : Bool) : String :=
  if dry_run then "Mock web search response: This is a dry run response."
  else
    match search query with
    | Except.ok context => context
    | Except.error _ => ""

/-- The rubric system prompt of `assess_confidence` (lines 96-108). -/
def assessSystemPrompt : String :=
  "You are a confidence assessment expert. Evaluate the confidence level of the following response.\nConsider:\n1. Completeness of the answer\n2. Specificity and precision\n3. Presence of uncertainty markers (e.g., \"might\", \"maybe\", \"I" ++ sQ ++ "m not sure\")\n4. Consistency of information\n\nYou must respond in valid JSON format with exactly these fields:\n\x7b\n    \"confidence_score\": <float between 0 and 1>,\n    \"reasoning\": \"<brief explanation>\"\n\x7d\n"

/-- The wrapper marker tested on line 122: `TextBlock(text=`. -/
def markerTB : String := "TextBlock(text="

/-- The first extraction delimiter of lines 123 and 180: `text='`. -/
def sepTextQ : String := "text=" ++ sQ

/-- The second extraction delimiter of line 123: an apostrophe followed by
a comma. -/
def sepQComma : String := sQ ++ ","

/-- The delimiter of line 180's `rsplit`: an apostrophe followed by a
closing parenthesis. -/
def sepQParen : String := sQ ++ ")"

/-- The literal substring located by the fallback on line 134. -/
def confKey : String := "\"confidence_score\":"

/-- Line 120-121 of `utils.py`: if the evaluation is a list, replace it by
the first element's `content` field when that element is a dict containing
one, else by `str` of the first element. -/
def assessListUnwrap (evaluation : PVal) : Except PyExc PVal :=
  match evaluation with
  | PVal.listV [] => Except.error PyExc.indexError
  | PVal.listV (x0 :: _) =>
    match x0 with
    | PVal.dict fs =>
      match dictLookupLast fs "content" with
      | some c => Except.ok c
      | none => Except.ok (PVal.str (pyStr x0))
    | _ => Except.ok (PVal.str (pyStr x0))
  | v => Except.ok v

/-- Lines 122-123 of `utils.py`: if `str(evaluation)` contains the wrapper
marker, replace the evaluation by `str(evaluation).split("text='")[1].split("',")[0]`. -/
def assessMarker (evaluation : PVal) : Except PyExc PVal :=
  if strContains (pyStr evaluation) markerTB then
    match pyListIdx (pySplit sepTextQ (pyStr evaluation)) 1 with
    | Except.ok s1 =>
      match pyListIdx (pySplit sepQComma s1) 0 with
      | Except.ok s2 => Except.ok (PVal.str s2)
      | Except.error e => Except.error e
    | Except.error e => Except.error e
  else Except.ok evaluation

/-- The whole cleaning chain of `assess_confidence` (lines 120-123). -/
def assessClean (evaluation : PVal) : Except PyExc PVal :=
  match assessListUnwrap evaluation with
  | Except.error e => Except.error e
  | Except.ok ev1 => assessMarker ev1

/-- Lines 134-138 of `utils.py`: the manual fallback extraction run inside
the `except (JSONDecodeError, KeyError)` handler.  When the literal
`"confidence_score":` is absent the code falls through to `return False`
(line 142); a failing `float` raises `ValueError` past this handler. -/
def assessFallback (evaluation : PVal) : Except PyExc Bool :=
  match evaluation with
  | PVal.str s =>
    if strContains s confKey then
      match pyListIdx (pySplit confKey s) 1 with
      | Except.ok t =>
        match pyListIdx (pySplit "," t) 0 with
        | Except.ok u =>
          match pyFloatStr (pyStrip u) with
          | Except.ok score => Except.ok (PFloat.gtB score pf07)
          | Except.error e => Except.error e
        | Except.error e => Except.error e
      | Except.error e => Except.error e
    else Except.ok false
  | _ => Except.error PyExc.typeError

/-- Lines 127-142 of `utils.py`: strict JSON parse of the cleaned
evaluation, extraction and float-coercion of `confidence_score`, and
comparison against 0.7; `JSONDecodeError` and `KeyError` divert into the
manual fallback, every other exception propagates. -/
def assessDecide (evaluation : PVal) : Except PyExc Bool :=
  match (do
      let parsed ← pyJsonLoads evaluation
      let raw ← pyDictGet parsed "confidence_score"
      let score ← pyFloat raw
      pure (PFloat.gtB score pf07) : Except PyExc Bool) with
  | Except.ok b => Except.ok b
  | Except.error PyExc.jsonDecodeError => assessFallback evaluation
  | Except.error PyExc.keyError => assessFallback evaluation
  | Except.error e => Except.error e

/-- The processing `assess_confidence` applies to the model output
(lines 120-142). -/
def assessEval (evaluation : PVal) : Except PyExc Bool :=
  match assessClean evaluation with
  | Except.error e => Except.error e
  | Except.ok ev2 => assessDecide ev2

/-- Embeds `assess_confidence` (lines 90-146 of `utils.py`): dry-run returns
`True`; otherwise the rubric prompt is sent through `chat_request` and the
output is scored, with every exception converted to `False` by the outer
handler. -/
def assess_confidence (endpoint api_key : String) (post : Payload → HttpResponse)
    (response : String) (dry_run : Bool) : Bool :=
  if dry_run then true
  else
    match chat_request endpoint api_key post "gpt-4-turbo" assessSystemPrompt
        ("Response to evaluate: " ++ response) 512 with
    | Except.error _ => false
    | Except.ok evaluation =>
      match assessEval evaluation with
      | Except.ok b => b
      | Except.error _ => false

/-- The system prompt of `synthesize_information` (lines 154-168). -/
def synthSystemPrompt : String :=
  "Synthesize the internal knowledge and web search results into a comprehensive response. \nFormat your response in a clear, human-readable way:\n1. Use bullet points for lists\n2. Add line breaks between sections\n3. Bold important numbers and dates\n4. Present the information in a conversational tone\n5. Highlight key findings at the beginning\n6. If there are discrepancies between sources, explain them clearly\n\nStructure your response with these sections:\n- Key Finding\n- Details from Internal Knowledge\n- Details from Web Search\n- Additional Context (if any)\n"

/-- Lines 177-178 of `utils.py`: the list-unwrap step of
`synthesize_information`, textually identical to lines 120-121. -/
def synthListUnwrap (response : PVal) : Except PyExc PVal :=
  match response with
  | PVal.listV [] => Except.error PyExc.indexError
  | PVal.listV (x0 :: _) =>
    match x0 with
    | PVal.dict fs =>
      match dictLookupLast fs "content" with
      | some c => Except.ok c
      | none => Except.ok (PVal.str (pyStr x0))
    | _ => Except.ok (PVal.str (pyStr x0))
  | v => Except.ok v

/-- Lines 179-180 of `utils.py`: if the response starts with `TextBlock(`,
replace it by `response.split("text='", 1)[1].rsplit("')", 1)[0]`;
`startswith` on a non-string raises `AttributeError`. -/
def synthMarker (response : PVal) : Except PyExc PVal :=
  match response with
  | PVal.str s =>
    if listStartsWith s.data "TextBlock(".data then
      match pyListIdx (pySplitMax1 sepTextQ s) 1 with
      | Except.ok a =>
        match pyListIdx (pyRSplit1 sepQParen a) 0 with
        | Except.ok b => Except.ok (PVal.str b)
        | Except.error e => Except.error e
      | Except.error e => Except.error e
    else Except.ok (PVal.str s)
  | _ => Except.error PyExc.attributeError

/-- The whole cleaning chain of `synthesize_information` (lines 177-180). -/
def synthClean (response : PVal) : Except PyExc PVal :=
  match synthListUnwrap response with
  | Except.error e => Except.error e
  | Except.ok r1 => synthMarker r1

/-- The `try` block of `synthesize_information` (lines 169-183): the
`chat_request` call followed by the cleaning chain. -/
def synthTry (endpoint api_key : String) (post : Payload → HttpResponse)
    (internal_response web_results : String) : Except PyExc PVal :=
  match chat_request endpoint api_key post "gpt-4-turbo" synthSystemPrompt
      ("Internal Knowledge: " ++ internal_response ++ "\n\nWeb Results: " ++ web_results) 512 with
  | Except.error e => Except.error e
  | Except.ok r => synthClean r

/-- Embeds `synthesize_information` (lines 148-186 of `utils.py`): dry-run returns
the fixed mock string; any exception in the try block yields the literal
error string. -/
def synthesize_information (endpoint api_key : String) (post : Payload → HttpResponse)
    (internal_response web_results : String) (dry_run : Bool) : PVal :=
  if dry_run then PVal.str "Mock synthesis: This is a dry run synthesis."
  else
    match synthTry endpoint api_key post internal_response web_results with
    | Except.ok v => v
    | Except.error _ => PVal.str "Error synthesizing information"

/-- Escape a string for embedding as a JSON string literal (used only to
build concrete response bodies for witnesses). -/
def jsonEscapeChar (c : Char) : List Char :=
  if c == '"' || c == '\\' then ['\\', c] else [c]

/-- Escape a whole string for a JSON string literal. -/
def jsonEscape (s : String) : String := String.mk (s.data.map jsonEscapeChar).flatten

/-- A well-formed chat-completion response body whose
`choices[0].message.content` is `content`. -/
def mkChatBody (content : String) : String :=
  "\x7b\"choices\": [\x7b\"message\": \x7b\"content\": \"" ++ jsonEscape content ++ "\"\x7d\x7d]\x7d"

/-- An oracle answering every POST with status 200 and the body embedding
`content`. -/
def postWith (content : String) : Payload → HttpResponse :=
  fun _ => ⟨200, mkChatBody content⟩

/-- The first model output of the spec's test vector:
`{"confidence_score": 0.85, "reasoning": "x"}`. -/
def json085 : String := "\x7b\"confidence_score\": 0.85, \"reasoning\": \"x\"\x7d"

/-- An unparsable model output containing no `confidence_score` key. -/
def garbageOut : String := "I am not sure about this answer."

/-- The provider wrapper decoration around a payload `s`:
`TextBlock(text='` + s + `', type='text')`, the shape whose delimiters the
code's extraction targets. -/
def wrapTB (s : String) : String :=
  "TextBlock(text=" ++ sQ ++ s ++ sQ ++ ", type=" ++ sQ ++ "text" ++ sQ ++ ")"

/-- The tail that `wrapTB` appends after the payload. -/
def tailTB : String := sQ ++ ", type=" ++ sQ ++ "text" ++ sQ ++ ")"

/-- A minimal marker-bearing string on which the two cleaning chains
disagree: `TextBlock(text='x')`. -/
def s0TB : String := "TextBlock(text=" ++ sQ ++ "x" ++ sQ ++ ")"

/-- A model output whose JSON parse fails and whose above-threshold score
is not followed by a comma: `Result: {"confidence_score": 0.9}`. -/
def badCommaOut : String := "Result: \x7b\"confidence_score\": 0.9\x7d"

/-- The string after the payload and the comma delimiter inside the
wrapper tail. -/
def restQt : String := " type=" ++ sQ ++ "text" ++ sQ ++ ")"

/-- An oracle answering every POST with a 500 error. -/
def post500 : Payload → HttpResponse := fun _ => ⟨500, "Internal Server Error"⟩

/-- An oracle answering every POST with a non-2xx, non-error 300 status and
a well-formed body. -/
def post300 : Payload → HttpResponse := fun _ => ⟨300, mkChatBody "hi"⟩

/-- Two oracles differing only in the returned content. -/
def postA : Payload → HttpResponse := fun _ => ⟨200, mkChatBody "alpha"⟩

/-- See `postA`. -/
def postB : Payload → HttpResponse := fun _ => ⟨200, mkChatBody "beta"⟩

/-- A search oracle that always fails. -/
def searchFail : String → Except PyExc String := fun _ => Except.error (PyExc.other "boom")

example : pyFloatStr "0.85" = Except.ok ⟨85, 100⟩ := rfl
example : pyFloatStr " 0.9 " = Except.ok ⟨9, 10⟩ := rfl
example : pyFloatStr "-1e2" = Except.ok ⟨-100, 1⟩ := rfl
example : pyFloatStr "2.5e-1" = Except.ok ⟨25, 100⟩ := rfl
example : pyFloatStr "0.9x" = Except.error PyExc.valueError := rfl
example : pyFloatStr "" = Except.error PyExc.valueError := rfl
example : PFloat.gtB ⟨85, 100⟩ pf07 = true := rfl
example : PFloat.gtB ⟨5, 10⟩ pf07 = false := rfl
example : jsonParse "0.5" = some (PVal.num ⟨5, 10⟩) := rfl
example : jsonParse "\x7b\"confidence_score\": 0.85, \"reasoning\": \"x\"\x7d" =
    some (PVal.dict [("confidence_score", PVal.num ⟨85, 100⟩), ("reasoning", PVal.str "x")]) := rfl
example : jsonParse "not json" = none := rfl
example : jsonParse " [1, \"a\\n\", true, null, \x7b\x7d] " =
    some (PVal.listV [PVal.num ⟨1, 1⟩, PVal.str ("a" ++ "\n"), PVal.bool true, PVal.null,
      PVal.dict []]) := rfl
example : jsonParse "012" = none := rfl
example : jsonParse "\x7b\"a\": 1,\x7d" = none := rfl
example : jsonParse "1 2" = none := rfl
example : extractContent (mkChatBody "hi there") = Except.ok (PVal.str "hi there") := rfl
example : extractContent (mkChatBody ("a\"b\\c" ++ sQ ++ "d")) =
    Except.ok (PVal.str ("a\"b\\c" ++ sQ ++ "d")) := rfl
example : chat_request "e" "k" (postWith "hi") "m" "s" "u" 512 = Except.ok (PVal.str "hi") := rfl
example : assessEval (PVal.str json085) = Except.ok true := rfl
example : assessEval (PVal.str "0.5") = Except.error PyExc.typeError := rfl
example : assessEval (PVal.str garbageOut) = Except.ok false := rfl
example : assess_confidence "e" "k" (postWith json085) "r" false = true := rfl
example : assess_confidence "e" "k" (postWith "0.5") "r" false = false := rfl
example : assess_confidence "e" "k" (postWith garbageOut) "r" false = false := rfl
example : assessClean (PVal.str (wrapTB json085)) = Except.ok (PVal.str json085) := rfl
example : assess_confidence "e" "k" (postWith (wrapTB json085)) "r" false = true := rfl
example : assessClean (PVal.str s0TB) = Except.ok (PVal.str ("x" ++ sQ ++ ")")) := rfl
example : synthClean (PVal.str s0TB) = Except.ok (PVal.str "x") := rfl
example : assessEval (PVal.str badCommaOut) = Except.error PyExc.valueError := rfl
example : assess_confidence "e" "k" (postWith badCommaOut) "r" false = false := rfl
example : pySplit confKey badCommaOut = ["Result: \x7b", " 0.9\x7d"] := rfl
example : pyStrip " 0.9\x7d" = "0.9\x7d" := rfl

theorem startsWithAux_append (p t : List Char) : startsWithAux p (p ++ t) = true := by
  induction p with
  | nil => rfl
  | cons c cs ih => simp [startsWithAux, ih]

theorem findSplit_eq_none (sep hay : List Char) (h : (findSplit sep hay).isSome = false) :
    findSplit sep hay = none := by
  cases hfs : findSplit sep hay with
  | none => rfl
  | some pr => rw [hfs] at h; simp at h

theorem pySplitAllF_single (sep : List Char) (fuel : Nat) (hay : List Char)
    (h : findSplit sep hay = none) : pySplitAllF sep fuel hay = [hay] := by
  cases fuel with
  | zero => rfl
  | succ m => simp [pySplitAllF, h]

theorem findSplit_sepTextQ_wrap (t : List Char) :
    findSplit sepTextQ.data ("TextBlock(text=".data ++ (sqC :: t)) =
      some ("TextBlock(".data, t) := rfl

theorem tailTB_data : tailTB.data = sqC :: ',' :: restQt.data := rfl

theorem sepQComma_data : sepQComma.data = [sqC, ','] := rfl

theorem wrapTB_data (s : String) :
    (wrapTB s).data = "TextBlock(text=".data ++ (sqC :: (s.data ++ tailTB.data)) := by
  simp [wrapTB, tailTB, sQ, String.singleton]

theorem findSplit_two_exact (a b : Char) (hab : (a == b) = false) (r : List Char) :
    ∀ s : List Char, findSplit [a, b] s = none →
      findSplit [a, b] (s ++ ([a, b] ++ r)) = some (s, r) := by
  intro s
  induction s with
  | nil =>
    intro _
    show findSplit [a, b] ([a, b] ++ r) = some ([], r)
    simp [findSplit, listStartsWith, startsWithAux]
  | cons c s' ih =>
    intro h
    simp only [findSplit, listStartsWith] at h
    split at h
    case isTrue hsw => simp at h
    case isFalse hsw =>
      have hsw' : startsWithAux [a, b] (c :: s') = false := by
        cases hx : startsWithAux [a, b] (c :: s') with
        | true => exact absurd hx hsw
        | false => rfl
      have hrec : findSplit [a, b] s' = none := by
        cases hfs2 : findSplit [a, b] s' with
        | none => rfl
        | some pr => rw [hfs2] at h; simp at h
      have hcond : startsWithAux [a, b] (c :: (s' ++ ([a, b] ++ r))) = false := by
        simp only [startsWithAux] at hsw' ⊢
        rcases Bool.and_eq_false_iff.mp hsw' with hca | htail
        · simp [hca]
        · cases s' with
          | nil => simp [startsWithAux, hab]
          | cons d s'' =>
            simp only [startsWithAux, Bool.and_true] at htail
            simp [List.cons_append, startsWithAux, htail]
      have hih : findSplit [a, b] (s' ++ ([a, b] ++ r)) = some (s', r) := ih hrec
      rw [List.cons_append]
      simp only [List.cons_append, List.nil_append] at hcond hih ⊢
      simp [findSplit, listStartsWith, hcond, hih]

theorem pyListIdx_zero {α : Type} (x : α) (l : List α) : pyListIdx (x :: l) 0 = Except.ok x := rfl

theorem pyListIdx_one {α : Type} (x y : α) (l : List α) :
    pyListIdx (x :: y :: l) 1 = Except.ok y := rfl

theorem pySplitAllF_cons (sep : List Char) (fuel : Nat) (hay p rest : List Char)
    (h : findSplit sep hay = some (p, rest)) :
    pySplitAllF sep (fuel + 1) hay = p :: pySplitAllF sep fuel rest := by
  simp [pySplitAllF, h]

theorem pySplit_wrapTB (s : String)
    (h1 : findSplit sepTextQ.data (s.data ++ tailTB.data) = none) :
    pySplit sepTextQ (wrapTB s) = ["TextBlock(", String.mk (s.data ++ tailTB.data)] := by
  rw [pySplit, wrapTB_data]
  rw [pySplitAllF_cons _ _ _ _ _ (findSplit_sepTextQ_wrap (s.data ++ tailTB.data))]
  rw [pySplitAllF_single _ _ _ h1]
  rfl

theorem pySplit_after_wrap (s : String)
    (h2 : findSplit sepQComma.data s.data = none) :
    pySplit sepQComma (String.mk (s.data ++ tailTB.data)) = [s, String.mk restQt.data] := by
  have hfs : findSplit sepQComma.data (s.data ++ tailTB.data) = some (s.data, restQt.data) := by
    have h2' : findSplit [sqC, ','] s.data = none := by rw [← sepQComma_data]; exact h2
    have hx := findSplit_two_exact sqC ',' (by decide) restQt.data s.data h2'
    rw [sepQComma_data, tailTB_data]
    simpa using hx
  show (pySplitAllF sepQComma.data ((s.data ++ tailTB.data).length + 1)
      (s.data ++ tailTB.data)).map String.mk = _
  rw [pySplitAllF_cons _ _ _ _ _ hfs]
  rw [pySplitAllF_single sepQComma.data _ restQt.data (by rfl)]
  rfl

theorem assessClean_str (x : String) :
    assessClean (PVal.str x) = assessMarker (PVal.str x) := rfl

theorem assessMarker_wrapTB (s : String)
    (h1 : strContains (s ++ tailTB) sepTextQ = false)
    (h2 : strContains s sepQComma = false) :
    assessMarker (PVal.str (wrapTB s)) = Except.ok (PVal.str s) := by
  have hfs1 : findSplit sepTextQ.data (s.data ++ tailTB.data) = none := by
    apply findSplit_eq_none
    rw [strContains, String.data_append] at h1
    exact h1
  have hfs2 : findSplit sepQComma.data s.data = none := by
    apply findSplit_eq_none
    rw [strContains] at h2
    exact h2
  have hmark : strContains (wrapTB s) markerTB = true := rfl
  simp only [assessMarker, pyStr, hmark, if_true]
  rw [pySplit_wrapTB s hfs1]
  rw [pyListIdx_one]
  show (match pyListIdx (pySplit sepQComma (String.mk (s.data ++ tailTB.data))) 0 with
    | Except.ok s2 => Except.ok (PVal.str s2)
    | Except.error e => Except.error e) = Except.ok (PVal.str s)
  rw [pySplit_after_wrap s hfs2]
  rw [pyListIdx_zero]

theorem assessMarker_plain (s : String) (h0 : strContains s markerTB = false) :
    assessMarker (PVal.str s) = Except.ok (PVal.str s) := by
  simp only [assessMarker, pyStr, h0]
  simp

theorem assessDecide_parse (v parsed raw : PVal) (score : PFloat)
    (h1 : pyJsonLoads v = Except.ok parsed)
    (h2 : pyDictGet parsed "confidence_score" = Except.ok raw)
    (h3 : pyFloat raw = Except.ok score) :
    assessDecide v = Except.ok (PFloat.gtB score pf07) := by
  simp [assessDecide, h1, h2, h3, bind, Except.bind, pure, Except.pure]

theorem assessEval_of (v cleaned : PVal) (b : Bool)
    (hc : assessClean v = Except.ok cleaned) (hd : assessDecide cleaned = Except.ok b) :
    assessEval v = Except.ok b := by
  simp [assessEval, hc, hd]

theorem assess_confidence_of_chat (ep k r : String) (post : Payload → HttpResponse)
    (v : PVal) (b : Bool)
    (hc : chat_request ep k post "gpt-4-turbo" assessSystemPrompt
        ("Response to evaluate: " ++ r) 512 = Except.ok v)
    (he : assessEval v = Except.ok b) :
    assess_confidence ep k post r false = b := by
  simp [assess_confidence, hc, he]

/-- C1: for every call to `chat_request`, if the configured endpoint string
contains the minimal-payload provider host, the constructed payload holds
only the model and a single user-role message (no system-role message, no
`max_tokens`, no `temperature`); for any other endpoint it holds exactly
one system-role and one user-role message plus `max_tokens` and
`temperature` equal to 0.7. -/
theorem chat_request_payload_shape (endpoint model system_prompt user_message : String)
    (max_tokens : Nat) :
    (strContains endpoint alphaHost = true →
      chatPayload endpoint model system_prompt user_message max_tokens =
        ⟨model, [⟨"user", user_message⟩], none, none⟩) ∧
    (strContains endpoint alphaHost = false →
      chatPayload endpoint model system_prompt user_message max_tokens =
        ⟨model, [⟨"system", system_prompt⟩, ⟨"user", user_message⟩],
          some max_tokens, some ⟨7, 10⟩⟩) := by
  constructor <;> intro h <;> simp [chatPayload, h]

/-- Witness for C1 at one endpoint of each kind. -/
theorem chat_request_payload_shape_witness :
    (strContains "https://alphagpt.alphafmc.com/v1/chat" alphaHost = true ∧
      chatPayload "https://alphagpt.alphafmc.com/v1/chat" "gpt-4-turbo" "sys" "hello" 512 =
        ⟨"gpt-4-turbo", [⟨"user", "hello"⟩], none, none⟩) ∧
    (strContains "https://api.example.com/v1/chat" alphaHost = false ∧
      chatPayload "https://api.example.com/v1/chat" "gpt-4-turbo" "sys" "hello" 512 =
        ⟨"gpt-4-turbo", [⟨"system", "sys"⟩, ⟨"user", "hello"⟩], some 512, some ⟨7, 10⟩⟩) :=
  ⟨⟨by decide, (chat_request_payload_shape _ _ _ _ _).1 (by decide)⟩,
   ⟨by decide, (chat_request_payload_shape _ _ _ _ _).2 (by decide)⟩⟩

/-- C2: with dry-run off, `assess_confidence` returns true on the model
output `{"confidence_score": 0.85, "reasoning": "x"}`, false on `0.5`,
false (without raising) on unparsable text with no `confidence_score` key;
and in general, when the strict JSON parse of the cleaned output succeeds
and `confidence_score` can be extracted and float-coerced, the result is
exactly "score strictly greater than 0.7". -/
theorem assess_confidence_scoring :
    (assess_confidence "e" "k" (postWith json085) "r" false = true) ∧
    (assess_confidence "e" "k" (postWith "0.5") "r" false = false) ∧
    (assess_confidence "e" "k" (postWith garbageOut) "r" false = false) ∧
    (∀ (ep k r : String) (post : Payload → HttpResponse) (v cleaned parsed raw : PVal)
        (score : PFloat),
      chat_request ep k post "gpt-4-turbo" assessSystemPrompt
          ("Response to evaluate: " ++ r) 512 = Except.ok v →
      assessClean v = Except.ok cleaned →
      pyJsonLoads cleaned = Except.ok parsed →
      pyDictGet parsed "confidence_score" = Except.ok raw →
      pyFloat raw = Except.ok score →
      assess_confidence ep k post r false = PFloat.gtB score pf07) := by
  refine ⟨rfl, rfl, rfl, ?_⟩
  intro ep k r post v cleaned parsed raw score hc hcl h1 h2 h3
  exact assess_confidence_of_chat ep k r post v (PFloat.gtB score pf07) hc
    (assessEval_of v cleaned _ hcl (assessDecide_parse cleaned parsed raw score h1 h2 h3))

/-- Witness for C2's general clause at the 0.85 test vector. -/
theorem assess_confidence_scoring_witness :
    chat_request "e" "k" (postWith json085) "gpt-4-turbo" assessSystemPrompt
        ("Response to evaluate: " ++ "r") 512 = Except.ok (PVal.str json085) ∧
    assess_confidence "e" "k" (postWith json085) "r" false = PFloat.gtB ⟨85, 100⟩ pf07 :=
  ⟨rfl,
    assess_confidence_scoring.2.2.2 "e" "k" "r" (postWith json085) (PVal.str json085)
      (PVal.str json085)
      (PVal.dict [("confidence_score", PVal.num ⟨85, 100⟩), ("reasoning", PVal.str "x")])
      (PVal.num ⟨85, 100⟩) ⟨85, 100⟩ rfl rfl rfl rfl rfl⟩

/-- C3 counterexample: `chat_request` — explicitly listed among the five
operations — takes no dry-run flag at all: its result depends on the
network response in every invocation, so it has no mode that makes no
network call. -/
theorem chat_request_network_dependent :
    chat_request "e" "k" postA "m" "s" "u" 512 ≠ chat_request "e" "k" postB "m" "s" "u" 512 := by
  intro h
  rw [show chat_request "e" "k" postA "m" "s" "u" 512 = Except.ok (PVal.str "alpha") from rfl,
      show chat_request "e" "k" postB "m" "s" "u" 512 = Except.ok (PVal.str "beta") from rfl] at h
  simp only [Except.ok.injEq, PVal.str.injEq] at h
  exact absurd h (by decide)

/-- C3 (amended): the four operations that accept a dry-run flag
(`call_rag`, `call_tavily_web_search`, `assess_confidence`,
`synthesize_information`), when invoked with dry-run enabled, ignore the
network oracle entirely and return their documented fixed mock values;
`chat_request` accepts no dry-run flag. -/
theorem dry_run_mock_values (ep k query context resp ir wr : String)
    (post : Payload → HttpResponse) (search : String → Except PyExc String) :
    call_rag ep k post query context true =
      PVal.str "Mock response: This is a dry run response." ∧
    call_tavily_web_search search query true =
      "Mock web search response: This is a dry run response." ∧
    assess_confidence ep k post resp true = true ∧
    synthesize_information ep k post ir wr true =
      PVal.str "Mock synthesis: This is a dry run synthesis." :=
  ⟨rfl, rfl, rfl, rfl⟩

/-- C4 counterexample: on the model output `TextBlock(text='x')` the two
cleaning chains produce different cleaned text, so they are not the same
normalization. -/
theorem normalization_differs_at_s0TB :
    assessClean (PVal.str s0TB) ≠ synthClean (PVal.str s0TB) := by
  intro h
  rw [show assessClean (PVal.str s0TB) = Except.ok (PVal.str ("x" ++ sQ ++ ")")) from rfl,
      show synthClean (PVal.str s0TB) = Except.ok (PVal.str "x") from rfl] at h
  simp only [Except.ok.injEq, PVal.str.injEq] at h
  exact absurd h (by decide)

/-- C4 (amended): `synthesize_information` applies the same list-unwrap
step as `assess_confidence`, but its marker step differs — detection by
`startswith` instead of containment and extraction by `rsplit` on an
apostrophe-parenthesis delimiter instead of `split` on an
apostrophe-comma delimiter — so the two cleaning chains can produce
different cleaned text, as on `TextBlock(text='x')`. -/
theorem normalization_shared_unwrap_distinct_marker :
    (∀ v : PVal, assessListUnwrap v = synthListUnwrap v) ∧
    assessMarker (PVal.str s0TB) = Except.ok (PVal.str ("x" ++ sQ ++ ")")) ∧
    synthMarker (PVal.str s0TB) = Except.ok (PVal.str "x") :=
  ⟨fun _ => rfl, rfl, rfl⟩

/-- C5 (amended): `chat_request` raises an `HTTPError` carrying the status
code exactly on the 4xx/5xx statuses that `raise_for_status` treats as
errors, and the error propagates; on any other status it returns the
result of extracting `choices[0].message.content` from the body — so a
non-2xx status outside 400-599 with a well-formed body returns normally. -/
theorem chat_request_http_error_spec (ep k model sp um : String) (mt : Nat)
    (post : Payload → HttpResponse) :
    (400 ≤ (post (chatPayload ep model sp um mt)).status ∧
        (post (chatPayload ep model sp um mt)).status < 600 →
      chat_request ep k post model sp um mt =
        Except.error (PyExc.httpError (post (chatPayload ep model sp um mt)).status)) ∧
    (¬ (400 ≤ (post (chatPayload ep model sp um mt)).status ∧
        (post (chatPayload ep model sp um mt)).status < 600) →
      chat_request ep k post model sp um mt =
        extractContent (post (chatPayload ep model sp um mt)).text) := by
  constructor <;> intro h <;> simp [chat_request, raise_for_status, h]

/-- Witness for C5's amended statement at a 500 response and at a
well-formed 200 response. -/
theorem chat_request_http_error_spec_witness :
    (400 ≤ (post500 (chatPayload "e" "m" "s" "u" 512)).status ∧
      (post500 (chatPayload "e" "m" "s" "u" 512)).status < 600) ∧
    chat_request "e" "k" post500 "m" "s" "u" 512 = Except.error (PyExc.httpError 500) ∧
    chat_request "e" "k" (postWith "hi") "m" "s" "u" 512 =
      extractContent (postWith "hi" (chatPayload "e" "m" "s" "u" 512)).text :=
  ⟨by decide, (chat_request_http_error_spec "e" "k" "m" "s" "u" 512 post500).1 (by decide),
   (chat_request_http_error_spec "e" "k" "m" "s" "u" 512 (postWith "hi")).2 (by decide)⟩

/-- C5 counterexample: a response with the non-2xx status 300 and a
well-formed body makes `chat_request` return normally instead of raising
an error carrying the status code. -/
theorem chat_request_non2xx_returns_ok :
    (post300 (chatPayload "e" "m" "s" "u" 512)).status = 300 ∧
    chat_request "e" "k" post300 "m" "s" "u" 512 = Except.ok (PVal.str "hi") :=
  ⟨rfl, rfl⟩

/-- C6: `call_rag` and `call_tavily_web_search` never propagate an
exception: with dry-run off, every failure of the underlying call
(including errors propagated out of `chat_request`, and any failure of the
search client) is caught and the function returns the empty string. -/
theorem wrappers_swallow_errors (ep k query context : String) (post : Payload → HttpResponse)
    (search : String → Except PyExc String) (e e2 : PyExc) :
    (chat_request ep k post "gpt-4-turbo" (ragSystemPrompt context) query 512 =
        Except.error e →
      call_rag ep k post query context false = PVal.str "") ∧
    (search query = Except.error e2 →
      call_tavily_web_search search query false = "") := by
  constructor <;> intro h <;> simp [call_rag, call_tavily_web_search, h]

/-- Witness for C6 at a failing POST and a failing search client. -/
theorem wrappers_swallow_errors_witness :
    chat_request "e" "k" post500 "gpt-4-turbo" (ragSystemPrompt "ctx") "q" 512 =
      Except.error (PyExc.httpError 500) ∧
    call_rag "e" "k" post500 "q" "ctx" false = PVal.str "" ∧
    searchFail "q" = Except.error (PyExc.other "boom") ∧
    call_tavily_web_search searchFail "q" false = "" :=
  ⟨rfl,
    (wrappers_swallow_errors "e" "k" "q" "ctx" post500 searchFail
      (PyExc.httpError 500) (PyExc.other "boom")).1 rfl,
   rfl,
    (wrappers_swallow_errors "e" "k" "q" "ctx" post500 searchFail
      (PyExc.httpError 500) (PyExc.other "boom")).2 rfl⟩

/-- C7: on any exception in its non-dry-run path, `synthesize_information`
returns exactly the literal string `Error synthesizing information`
instead of propagating the exception. -/
theorem synthesize_error_literal (ep k ir wr : String) (post : Payload → HttpResponse)
    (e : PyExc) (h : synthTry ep k post ir wr = Except.error e) :
    synthesize_information ep k post ir wr false =
      PVal.str "Error synthesizing information" := by
  simp [synthesize_information, h]

/-- Witness for C7 at a failing POST. -/
theorem synthesize_error_literal_witness :
    synthTry "e" "k" post500 "int" "web" = Except.error (PyExc.httpError 500) ∧
    synthesize_information "e" "k" post500 "int" "web" false =
      PVal.str "Error synthesizing information" :=
  ⟨rfl, synthesize_error_literal "e" "k" "int" "web" post500 (PyExc.httpError 500) rfl⟩

/-- C8: on a model output consisting of valid confidence JSON inside the
known wrapper decoration, `assess_confidence` extracts the payload from
between the delimiters and decides exactly "score strictly greater than
0.7", the same decision as on the bare payload — the wrapper does not
change the decision.  The hypotheses state that the payload does not
itself collide with the marker and the two delimiters, and that it parses
to an object whose `confidence_score` float-coerces. -/
theorem assess_confidence_wrapped_json (ep k r s : String)
    (post_w post_p : Payload → HttpResponse) (parsed raw : PVal) (score : PFloat)
    (hw : chat_request ep k post_w "gpt-4-turbo" assessSystemPrompt
        ("Response to evaluate: " ++ r) 512 = Except.ok (PVal.str (wrapTB s)))
    (hp : chat_request ep k post_p "gpt-4-turbo" assessSystemPrompt
        ("Response to evaluate: " ++ r) 512 = Except.ok (PVal.str s))
    (h0 : strContains s markerTB = false)
    (h1 : strContains (s ++ tailTB) sepTextQ = false)
    (h2 : strContains s sepQComma = false)
    (hj : pyJsonLoads (PVal.str s) = Except.ok parsed)
    (hk : pyDictGet parsed "confidence_score" = Except.ok raw)
    (hf : pyFloat raw = Except.ok score) :
    assess_confidence ep k post_w r false = PFloat.gtB score pf07 ∧
    assess_confidence ep k post_p r false = PFloat.gtB score pf07 := by
  have hdec : assessDecide (PVal.str s) = Except.ok (PFloat.gtB score pf07) :=
    assessDecide_parse _ parsed raw score hj hk hf
  constructor
  · exact assess_confidence_of_chat _ _ _ _ _ _ hw
      (assessEval_of _ (PVal.str s) _
        (by rw [assessClean_str]; exact assessMarker_wrapTB s h1 h2) hdec)
  · exact assess_confidence_of_chat _ _ _ _ _ _ hp
      (assessEval_of _ (PVal.str s) _
        (by rw [assessClean_str]; exact assessMarker_plain s h0) hdec)

/-- Witness for C8 at the 0.85 test vector, wrapped and bare. -/
theorem assess_confidence_wrapped_json_witness :
    strContains (json085 ++ tailTB) sepTextQ = false ∧
    assess_confidence "e" "k" (postWith (wrapTB json085)) "r" false =
      PFloat.gtB ⟨85, 100⟩ pf07 ∧
    assess_confidence "e" "k" (postWith json085) "r" false = PFloat.gtB ⟨85, 100⟩ pf07 := by
  have h := assess_confidence_wrapped_json "e" "k" "r" json085
    (postWith (wrapTB json085)) (postWith json085)
    (PVal.dict [("confidence_score", PVal.num ⟨85, 100⟩), ("reasoning", PVal.str "x")])
    (PVal.num ⟨85, 100⟩) ⟨85, 100⟩ rfl rfl (by decide) (by decide) (by decide) rfl rfl rfl
  exact ⟨by decide, h.1, h.2⟩

/-- C9: `call_rag` applies no wrapper-stripping normalization: with
dry-run off, whenever the underlying `chat_request` succeeds, `call_rag`
returns the extracted value unchanged. -/
theorem call_rag_no_normalization (ep k query context : String)
    (post : Payload → HttpResponse) (v : PVal)
    (h : chat_request ep k post "gpt-4-turbo" (ragSystemPrompt context) query 512 =
      Except.ok v) :
    call_rag ep k post query context false = v := by
  simp [call_rag, h]

/-- Witness for C9 on a marker-bearing output, which passes through
`call_rag` unstripped. -/
theorem call_rag_no_normalization_witness :
    chat_request "e" "k" (postWith s0TB) "gpt-4-turbo" (ragSystemPrompt "ctx") "q" 512 =
      Except.ok (PVal.str s0TB) ∧
    call_rag "e" "k" (postWith s0TB) "q" "ctx" false = PVal.str s0TB :=
  ⟨rfl, call_rag_no_normalization "e" "k" "q" "ctx" (postWith s0TB) (PVal.str s0TB) rfl⟩

/-- C10: the manual fallback of `assess_confidence` only succeeds when a
comma follows the numeric value: on `Result: {"confidence_score": 0.9}`
the strict parse fails, the fallback slices out `0.9}` (no comma follows
the number), float-coercion raises `ValueError`, the outer handler absorbs
it, and the function returns false despite the above-threshold score. -/
theorem assess_confidence_fallback_needs_comma :
    pyJsonLoadsStr badCommaOut = Except.error PyExc.jsonDecodeError ∧
    strContains badCommaOut confKey = true ∧
    pySplit confKey badCommaOut = ["Result: \x7b", " 0.9\x7d"] ∧
    pyStrip " 0.9\x7d" = "0.9\x7d" ∧
    pyFloatStr "0.9\x7d" = Except.error PyExc.valueError ∧
    assessEval (PVal.str badCommaOut) = Except.error PyExc.valueError ∧
    assess_confidence "e" "k" (postWith badCommaOut) "r" false = false :=
  ⟨rfl, rfl, rfl, rfl, rfl, rfl, rfl⟩
